import Mathlib

/-!
Verification of the ClawPhD agent-tools layer (`clawphd/agent/tools`).

The Python sources are shallowly embedded: Python strings are modelled as
`List Char`, Python exceptions as `Except`, JSON values produced by
`json.loads` as the inductive `PyJson`, and the filesystem / subprocess
environment of the sandboxed code runner as explicit parameters.
-/

namespace ClawPhD

def exceptDecEq {ε α : Type} [DecidableEq ε] [DecidableEq α] :
    (a b : Except ε α) → Decidable (a = b)
  | .error e, .error f =>
      if h : e = f then .isTrue (congrArg Except.error h)
      else .isFalse (fun hh => h (Except.error.inj hh))
  | .error _, .ok _ => .isFalse (fun hh => Except.noConfusion hh)
  | .ok _, .error _ => .isFalse (fun hh => Except.noConfusion hh)
  | .ok v, .ok w =>
      if h : v = w then .isTrue (congrArg Except.ok h)
      else .isFalse (fun hh => h (Except.ok.inj hh))

instance {ε α : Type} [DecidableEq ε] [DecidableEq α] : DecidableEq (Except ε α) :=
  exceptDecEq

/-! ### Python string primitives over `List Char`

`findSub hay needle` models Python `hay.find(needle)` / the successful case of
`hay.index(needle)`: the least index at which `needle` occurs in `hay`, or
`none`.  `findSubFrom` adds the `start` argument of `str.find(sub, start)`,
which searches in `hay[start:]` and reports an absolute index. -/

def isSubAt (needle hay : List Char) : Bool :=
  needle.isPrefixOf hay

def findSub : List Char → List Char → Option Nat
  | [], needle => if needle = [] then some 0 else none
  | c :: cs, needle =>
      if isSubAt needle (c :: cs) then some 0
      else (findSub cs needle).map (· + 1)

def findSubFrom (hay needle : List Char) (start : Nat) : Option Nat :=
  (findSub (hay.drop start) needle).map (· + start)

/-- Python `needle in hay` for strings. -/
def containsSub (hay needle : List Char) : Bool :=
  (findSub hay needle).isSome

/-- Python slicing `s[a:b]` (for `a ≤ b`; out-of-range indices clamp). -/
def pySlice (s : List Char) (a b : Nat) : List Char :=
  (s.take b).drop a

/-- Whitespace characters stripped by Python `str.strip()` (ASCII range). -/
def pySpace (c : Char) : Bool :=
  c = ' ' || c = '\t' || c = '\n' || c = '\x0d' || c = '\x0b' || c = '\x0c'

/-- Python `str.strip()`. -/
def pyStrip (s : List Char) : List Char :=
  (s.dropWhile pySpace).reverse.dropWhile pySpace |>.reverse

/-! ### Response normalizer (`paperbanana._extract_python`, `_extract_json`,
`autopage._extract_json`)

Python `str.index` raises `ValueError` when the substring is absent, so the
paperbanana extractors are embedded as `Except Unit (List Char)` with
`.error ()` standing for the raised `ValueError`.  The autopage variant uses
`str.find` with an explicit `-1` check and never raises. -/

def fence : List Char := "```".data
def pyFence : List Char := "```python".data
def jsonFence : List Char := "```json".data

/-- `paperbanana._extract_python(response)`. -/
def extract_python (response : List Char) : Except Unit (List Char) :=
  match findSub response pyFence with
  | some i =>
      let start := i + pyFence.length
      match findSubFrom response fence start with
      | some e => .ok (pyStrip (pySlice response start e))
      | none => .error ()
  | none =>
      match findSub response fence with
      | some i =>
          let start := i + 3
          match findSubFrom response fence start with
          | some e => .ok (pyStrip (pySlice response start e))
          | none => .error ()
      | none => .ok (pyStrip response)

/-- `paperbanana._extract_json(response)` (strips the input first). -/
def extract_json (response : List Char) : Except Unit (List Char) :=
  let r := pyStrip response
  match findSub r jsonFence with
  | some i =>
      let start := i + jsonFence.length
      match findSubFrom r fence start with
      | some e => .ok (pyStrip (pySlice r start e))
      | none => .error ()
  | none =>
      match findSub r fence with
      | some i =>
          let start := i + 3
          match findSubFrom r fence start with
          | some e => .ok (pyStrip (pySlice r start e))
          | none => .error ()
      | none => .ok r

/-- `autopage._extract_json(response)`: same tiers, but the closing fence is
looked up with `str.find`, falling back to the end of the text when absent. -/
def ap_extract_json (response : List Char) : List Char :=
  let t := pyStrip response
  match findSub t jsonFence with
  | some i =>
      let start := i + jsonFence.length
      pyStrip (pySlice t start ((findSubFrom t fence start).getD t.length))
  | none =>
      match findSub t fence with
      | some i =>
          let start := i + fence.length
          pyStrip (pySlice t start ((findSubFrom t fence start).getD t.length))
      | none => t

/-! ### Python JSON values

The shape of values produced by `json.loads`, as far as the tools inspect
them.  `num` covers the hashable scalar leaves (ints/floats/bools/`None` are
folded into `num`/`null` as the tools only test truthiness and dict
membership on them). -/

inductive PyJson : Type
  | str (s : List Char)
  | list (xs : List PyJson)
  | dict (kvs : List (List Char × PyJson))
  | num (n : Int)
  | null

/-- Python truthiness (`bool(x)`) on JSON values. -/
def truthy : PyJson → Bool
  | .str s => !s.isEmpty
  | .list xs => !xs.isEmpty
  | .dict kvs => !kvs.isEmpty
  | .num n => n ≠ 0
  | .null => false

/-- Python `d.get(key, default)`: raises `AttributeError` when the receiver is
not a dict; on a dict, the value of the last binding of `key` (later
duplicate keys override earlier ones in `json.loads`), else the default. -/
def pyGet (j : PyJson) (key : List Char) (dflt : PyJson) : Except Unit PyJson :=
  match j with
  | .dict kvs => .ok (((kvs.reverse.find? (fun kv => kv.1 = key)).map Prod.snd).getD dflt)
  | _ => .error ()

/-! ### Sandboxed code runner (`paperbanana._run_code`)

The child-process step is the one nondeterministic external input, captured
by `RunOutcome`: either the child exited (with an exit code and captured
stdout/stderr), or `subprocess.run` raised `TimeoutExpired`, or spawning /
waiting raised some other exception.  The filesystem is a list of existing
paths; `created` lists the paths existing after the child step (the child may
or may not have created the declared output). -/

inductive RunOutcome : Type
  | exited (code : Int) (stdout stderr : List Char)
  | timedOut
  | raised (msg : List Char)
deriving DecidableEq

structure RunEnv : Type where
  outcome : RunOutcome
  created : List String
deriving DecidableEq

/-- The diagnostic message built for a non-zero exit: the non-empty captured
streams, labelled and joined with a blank line, or `"Unknown error"`. -/
def exitMsg (stdout stderr : List Char) : List Char :=
  if !stdout.isEmpty && !stderr.isEmpty then
    "STDOUT:\n".data ++ stdout ++ "\n\n".data ++ "STDERR:\n".data ++ stderr
  else if !stdout.isEmpty then "STDOUT:\n".data ++ stdout
  else if !stderr.isEmpty then "STDERR:\n".data ++ stderr
  else "Unknown error".data

def timeoutMsg : List Char := "Code execution timed out after 60 seconds".data

def noOutputMsg : List Char :=
  "Code ran successfully but output file was not created".data

def unexpectedErrorTag : List Char := "Unexpected error: ".data

/-- `_run_code(code, output_path)`: writes the temp source file `tmp`, runs
the child (per `env`), classifies the outcome, and — in `finally` —
`Path(tmp).unlink(missing_ok=True)`.  Returns the `(success, error_msg)` pair
together with the final filesystem. -/
def run_code (env : RunEnv) (tmp output_path : String) (fs : List String) :
    (Bool × List Char) × List String :=
  let fs1 := tmp :: fs
  let fs2 := fs1 ++ env.created
  let res : Bool × List Char :=
    match env.outcome with
    | .exited code stdout stderr =>
        if code ≠ 0 then (false, exitMsg stdout stderr)
        else if output_path ∈ fs2 then (true, [])
        else (false, noOutputMsg)
    | .timedOut => (false, timeoutMsg)
    | .raised m => (false, unexpectedErrorTag ++ m)
  (res, fs2.filter (· ≠ tmp))

/-! ### Path resolver (`autopage._resolve_path`)

`Path(path).expanduser().resolve()` depends on the process filesystem
(symlinks, home directory, working directory); it is abstracted as the
`canon` parameter, a canonicalization function mapping a path string to its
absolute canonical form.  On already-canonical absolute paths on a
symlink-free filesystem `canon` is the identity.  The containment check is
embedded exactly as written: `str(resolved).startswith(str(allowed.resolve()))`. -/

def resolve_path (canon : String → String) (path : String) (allowed : Option String) :
    Except String String :=
  let resolved := canon path
  match allowed with
  | some a =>
      if ¬ (canon a).data.isPrefixOf resolved.data then
        .error ("Path " ++ path ++ " is outside allowed directory " ++ a)
      else .ok resolved
  | none => .ok resolved

/-- Directory containment: `p` lies inside the directory `root` (it is the
root itself or a path under it). -/
def isWithin (root p : String) : Bool :=
  p = root || (root ++ "/").data.isPrefixOf p.data

/-! ### Reference store (`paperbanana_providers.ReferenceStore`) -/

/-- A well-formed entry of `index.json`'s `examples` list (`id`,
`source_context` and `caption` are accessed with `item[...]`; `image_path`
and `category` with `.get`). -/
structure IndexItem : Type where
  id : String
  source_context : String
  caption : String
  image_path : String
  category : Option String
deriving DecidableEq

structure ReferenceExample : Type where
  id : String
  source_context : String
  caption : String
  image_path : String
  category : Option String
deriving DecidableEq

/-- Python `Path(p).is_absolute()` on POSIX: the path starts with `/`. -/
def isAbsolutePath (p : String) : Bool :=
  "/".data.isPrefixOf p.data

/-- One item of the index converted to a `ReferenceExample`: a non-empty
relative `image_path` is joined onto the store directory. -/
def convertItem (storePath : String) (item : IndexItem) : ReferenceExample :=
  let img :=
    if !item.image_path.isEmpty && !isAbsolutePath item.image_path then
      storePath ++ "/" ++ item.image_path
    else item.image_path
  ⟨item.id, item.source_context, item.caption, img, item.category⟩

/-- The mutable per-instance state of a `ReferenceStore`: the cached
`_examples` list and the `_loaded` flag. -/
structure StoreState : Type where
  examples : List ReferenceExample
  loaded : Bool
deriving DecidableEq

def initStoreState : StoreState := ⟨[], false⟩

/-- `ReferenceStore._load()`.  `index` is the content of `index.json` on
disk, `none` when the file does not exist (the non-fatal warning case). -/
def store_load (index : Option (List IndexItem)) (storePath : String)
    (st : StoreState) : StoreState :=
  if st.loaded then st
  else
    match index with
    | none => { st with loaded := true }
    | some items =>
        { examples := st.examples ++ items.map (convertItem storePath),
          loaded := true }

/-- `ReferenceStore.get_all()`: load (lazily) and return `_examples`,
together with the updated instance state. -/
def store_get_all (index : Option (List IndexItem)) (storePath : String)
    (st : StoreState) : List ReferenceExample × StoreState :=
  let st1 := store_load index storePath st
  (st1.examples, st1)

/-! ### Reference ranking (`SearchReferencesTool.execute` / `_vlm_rank`)

The provider call `self._vlm.generate(...)` is an external input modelled as
`gen : Except Unit String` (it returns a response text or raises), and
Python's `json.loads` is modelled as a function `loads` from the response
text to a `PyJson` value or a `JSONDecodeError`. -/

/-- Python `for eid in ids`: lists yield their elements, strings their
characters, dicts their keys; iterating a scalar raises `TypeError`. -/
def pyIterate : PyJson → Except Unit (List PyJson)
  | .list xs => .ok xs
  | .str s => .ok (s.map (fun c => .str [c]))
  | .dict kvs => .ok (kvs.map (fun kv => .str kv.1))
  | .num _ => .error ()
  | .null => .error ()

/-- One step of `[id_map[eid] for eid in ids if eid in id_map]`: the
membership test `eid in id_map` hashes `eid`, raising `TypeError` on an
unhashable value (list/dict); only string keys can match, since `id_map` is
keyed by the candidates' string ids. -/
def lookupCandidate (candidates : List ReferenceExample) :
    PyJson → Except Unit (Option ReferenceExample)
  | .str s => .ok (candidates.find? (fun c => c.id.data = s))
  | .num _ => .ok none
  | .null => .ok none
  | .list _ => .error ()
  | .dict _ => .error ()

/-- The whole comprehension `[id_map[eid] for eid in ids if eid in id_map]`,
evaluated left to right, propagating a raised `TypeError`. -/
def selectByIds (candidates : List ReferenceExample) :
    List PyJson → Except Unit (List ReferenceExample)
  | [] => .ok []
  | e :: rest =>
      match lookupCandidate candidates e with
      | .error u => .error u
      | .ok hit =>
          match selectByIds candidates rest with
          | .error u => .error u
          | .ok tl => .ok (match hit with | some c => c :: tl | none => tl)

/-- `SearchReferencesTool._vlm_rank(...)`: the `try` body parses the provider
response, reads `selected_ids` (default `[]`), maps ids back to candidates
and truncates to `num_examples`; `except Exception` falls back to
`candidates[:num_examples]`. -/
def vlm_rank (gen : Except Unit String) (loads : String → Except Unit PyJson)
    (candidates : List ReferenceExample) (num_examples : Nat) :
    List ReferenceExample :=
  match gen with
  | .error _ => candidates.take num_examples
  | .ok resp =>
      match loads resp with
      | .error _ => candidates.take num_examples
      | .ok parsed =>
          match pyGet parsed "selected_ids".data (.list []) with
          | .error _ => candidates.take num_examples
          | .ok ids =>
              match pyIterate ids with
              | .error _ => candidates.take num_examples
              | .ok idSeq =>
                  match selectByIds candidates idSeq with
                  | .error _ => candidates.take num_examples
                  | .ok sel => sel.take num_examples

/-- The selection step of `SearchReferencesTool.execute` (lines 74–80):
rank through the VLM only when one is configured and the pool is larger than
`num_examples`; otherwise take the first `num_examples` in store order. -/
def select_references (vlmConfigured : Bool) (gen : Except Unit String)
    (loads : String → Except Unit PyJson) (candidates : List ReferenceExample)
    (num_examples : Nat) : List ReferenceExample :=
  if vlmConfigured && candidates.length > num_examples then
    vlm_rank gen loads candidates num_examples
  else
    candidates.take num_examples

/-! ### Critique result (`CritiqueImageTool.execute`, JSON-parse success path)

When `json.loads(_extract_json(resp))` succeeds with value `data`, the tool
builds the returned JSON object from `data.get("critic_suggestions", [])`
and `data.get("revised_description")`.  `.get` on a non-dict raises
`AttributeError`, which the surrounding `except Exception` turns into an
`"Error during critique: …"` text — only the dict case produces the
structured result. -/

structure CritiqueResult : Type where
  suggestions : PyJson
  needs_revision : Bool
  revised_description : PyJson

/-- The structured result assembled at `paperbanana.py` lines 377–386, for a
successfully parsed `data`; `.error ()` is the raised `AttributeError` when
`data` is not a dict. -/
def critique_result (data : PyJson) : Except Unit CritiqueResult :=
  match pyGet data "critic_suggestions".data (.list []) with
  | .error u => .error u
  | .ok suggestions =>
      match pyGet data "revised_description".data .null with
      | .error u => .error u
      | .ok revised =>
          .ok ⟨suggestions, truthy suggestions && truthy revised, revised⟩

/-! ### Tool registry

Modelled from the spec: `clawphd/agent/tools/registry.py` (class
`ToolRegistry` with `register`, `get_definitions`, `execute`) and
`clawphd/agent/tools/base.py` (class `Tool`) are not under `src/`; only
their tests and importers are.  The model follows §4.1 of the spec: `execute`
looks the tool up by name, validates the arguments against the declared
schema (required presence, type, enum, numeric bounds, first violation
short-circuiting with an `"Invalid parameters: …"` text), then invokes the
tool's operation, converting any raised exception into an `"Error: …"` text,
so that `execute` itself never raises. -/

inductive ParamType : Type
  | string | integer | number | boolean | object
deriving DecidableEq

structure ParamSpec : Type where
  type : ParamType
  enumVals : Option (List String)
  minimum : Option Int
  maximum : Option Int

/-- Does a JSON argument value have the declared parameter type? -/
def typeMatches : ParamType → PyJson → Bool
  | .string, .str _ => true
  | .integer, .num _ => true
  | .number, .num _ => true
  | .boolean, .num _ => true
  | .object, .dict _ => true
  | _, _ => false

/-- Does a present argument value satisfy its declared spec (type, enum,
bounds)? -/
def valueOk (spec : ParamSpec) (v : PyJson) : Bool :=
  typeMatches spec.type v &&
  (match spec.enumVals, v with
   | some vs, .str s => vs.any (fun allowed => allowed.data = s)
   | some _, _ => false
   | none, _ => true) &&
  (match spec.minimum, v with
   | some lo, .num n => lo ≤ n
   | some _, _ => false
   | none, _ => true) &&
  (match spec.maximum, v with
   | some hi, .num n => n ≤ hi
   | some _, _ => false
   | none, _ => true)

structure ToolModel : Type where
  name : String
  properties : List (String × ParamSpec)
  required : List String
  /-- The tool's async operation: returns its result text or raises. -/
  op : List (String × PyJson) → Except String String

def argLookup (args : List (String × PyJson)) (key : String) : Option PyJson :=
  (args.find? (fun a => a.1 = key)).map Prod.snd

/-- Modelled from the spec: schema validation in `ToolRegistry.execute`
(§4.1 step 2) — every required property present, every present declared
property well-typed and within enum/bounds; the first violation yields a
descriptive message. -/
def validateArgs (tool : ToolModel) (args : List (String × PyJson)) :
    Option String :=
  match tool.required.find? (fun r => (argLookup args r).isNone) with
  | some r => some ("Invalid parameters: missing required argument " ++ r)
  | none =>
      match tool.properties.find? (fun p =>
          match argLookup args p.1 with
          | some v => !valueOk p.2 v
          | none => false) with
      | some p => some ("Invalid parameters: invalid value for " ++ p.1)
      | none => none

/-- Modelled from the spec: `ToolRegistry.execute(name, arguments)` (§4.1) —
unknown tool, validation failure and a raising operation all become plain
result texts; the function is total and never raises. -/
def registry_execute (tools : List ToolModel) (name : String)
    (args : List (String × PyJson)) : String :=
  match tools.find? (fun t => t.name = name) with
  | none => "Error: unknown tool " ++ name
  | some tool =>
      match validateArgs tool args with
      | some msg => msg
      | none =>
          match tool.op args with
          | .ok res => res
          | .error e => "Error: " ++ e

/-- The result shapes of the four outcomes claimed for `_run_code`: success
with empty message, the timeout message, the missing-output message, or the
captured-streams diagnostic of a non-zero exit. -/
def FourOutcomeSpec (r : Bool × List Char) : Prop :=
  r = (true, []) ∨ r.2 = timeoutMsg ∨ r.2 = noOutputMsg ∨ ∃ o e, r.2 = exitMsg o e

/-- Modelled from the spec: a registry fixture mirroring the
`search_references` schema (two required string parameters, one bounded
integer), whose operation raises. -/
def searchToolFixture : ToolModel where
  name := "search_references"
  properties :=
    [("source_context", ⟨.string, none, none, none⟩),
     ("caption", ⟨.string, none, none, none⟩),
     ("num_examples", ⟨.integer, none, some 1, some 13⟩)]
  required := ["source_context", "caption"]
  op := fun _ => .error "boom"

/-! ### Helper lemmas -/

/-- `containsSub` agrees with list-infix: Python `needle in hay` holds exactly
when `needle` occurs contiguously in `hay`. -/
theorem containsSub_iff_occurs (hay needle : List Char) :
    containsSub hay needle = true ↔ needle <:+: hay := by
  induction hay with
  | nil =>
      by_cases h : needle = [] <;>
        simp [containsSub, findSub, h]
  | cons c cs ih =>
      rw [List.infix_cons_iff, ← ih, ← List.isPrefixOf_iff_prefix]
      by_cases h : needle.isPrefixOf (c :: cs) <;>
        simp [containsSub, findSub, isSubAt, h]

/-! ### C2: the temporary source file is deleted on every exit path -/

/-- C2.  For every child-process outcome (zero exit, non-zero exit, timeout,
and any exception raised while spawning or waiting on the child), every
declared output path and every starting filesystem, the temporary source file
written by `_run_code` is not in the filesystem after the call returns: the
`finally: Path(tmp).unlink(missing_ok=True)` runs on all of these paths. -/
theorem run_code_deletes_temp_on_every_path (env : RunEnv) (tmp output_path : String)
    (fs : List String) : tmp ∉ (run_code env tmp output_path fs).2 := by
  intro h
  simp only [run_code, List.mem_filter] at h
  exact (by simpa using h.2 : ¬ tmp = tmp) rfl

/-- Claim C2 witness: the temp file is gone after a timed-out run that
started from a filesystem already containing other files. -/
theorem run_code_deletes_temp_on_every_path_witness :
    "/tmp/src.py" ∉ (run_code ⟨.timedOut, ["/out/plot.png"]⟩ "/tmp/src.py"
      "/out/plot.png" ["/ws/data.csv"]).2 :=
  run_code_deletes_temp_on_every_path ⟨.timedOut, ["/out/plot.png"]⟩
    "/tmp/src.py" "/out/plot.png" ["/ws/data.csv"]

/-! ### C9: reference store — missing index and caching -/

/-- C9.  A `ReferenceStore` whose directory has no `index.json` yields `[]`
from `get_all` (the missing index is a non-fatal warning, not a raise); the
first `get_all` on a fresh store marks it loaded; and every later `get_all`
returns the very same cached list and state, independently of what the index
file now contains — the index is not re-read. -/
theorem store_get_all_missing_index_and_cached (p : String)
    (index index2 : Option (List IndexItem)) :
    (store_get_all none p initStoreState).1 = [] ∧
    ((store_get_all index p initStoreState).2).loaded = true ∧
    store_get_all index2 p (store_get_all index p initStoreState).2 =
      ((store_get_all index p initStoreState).1,
       (store_get_all index p initStoreState).2) := by
  refine ⟨rfl, ?_, ?_⟩ <;>
    cases index <;>
      simp [store_get_all, store_load, initStoreState]

/-! ### C4: path resolution under an allowed root -/

/-- C4 counterexample.  With allowed root `/ws`, the already-canonical input
`/wsevil/secret` (so `canon` is the identity on it) passes the
`str(resolved).startswith(str(allowed.resolve()))` check because `/wsevil`
shares the string prefix `/ws`, and `_resolve_path` returns it even though it
lies outside the directory `/ws` — refuting "never returns a path outside
the allowed root". -/
theorem resolve_path_escapes_with_prefix_sharing_sibling :
    resolve_path id "/wsevil/secret" (some "/ws") = .ok "/wsevil/secret" ∧
    isWithin "/ws" "/wsevil/secret" = false := by
  constructor <;> decide

/-- C4 (amended).  `_resolve_path` with an allowed root either raises
`PermissionError` naming both the input path and the allowed directory, or
returns the canonical path — and it returns exactly when the canonical
path's string has the canonical root's string as a *prefix*.  This admits
prefix-sharing siblings (e.g. `/wsevil/…` under root `/ws`), so containment
is by string prefix, not by directory; a target such as `/etc/passwd` under
root `/ws` is rejected, and with no allowed root every path resolves. -/
theorem resolve_path_prefix_containment (canon : String → String)
    (path a : String) :
    (resolve_path canon path (some a) =
        .error ("Path " ++ path ++ " is outside allowed directory " ++ a) ∧
      ¬ (canon a).data.isPrefixOf (canon path).data ∨
     resolve_path canon path (some a) = .ok (canon path) ∧
      (canon a).data.isPrefixOf (canon path).data) ∧
    resolve_path canon path none = .ok (canon path) ∧
    (resolve_path id "/etc/passwd" (some "/ws")).isOk = false := by
  refine ⟨?_, rfl, by decide⟩
  by_cases h : (canon a).data.isPrefixOf (canon path).data
  · exact Or.inr ⟨by simp [resolve_path, h], h⟩
  · exact Or.inl ⟨by simp [resolve_path, h], h⟩

/-- Claim C4 witness: a target inside the allowed root resolves successfully
to its canonical form (read off the prefix-containment theorem). -/
theorem resolve_path_prefix_containment_witness :
    resolve_path id "/ws/paper.pdf" (some "/ws") = .ok "/ws/paper.pdf" := by
  rcases (resolve_path_prefix_containment id "/ws/paper.pdf" "/ws").1 with
    ⟨herr, hpre⟩ | ⟨hok, _⟩
  · exact absurd (by decide) hpre
  · exact hok

/-! ### C3: outcome classification of the sandboxed runner -/

/-- Every non-zero-exit diagnostic starts `STD…` (third character `D`) or is
exactly `"Unknown error"` (third character `k`). -/
theorem exitMsg_drop_two_head (o e : List Char) :
    ((exitMsg o e).drop 2).head? = some 'D' ∨
    ((exitMsg o e).drop 2).head? = some 'k' := by
  unfold exitMsg
  split_ifs <;> first | exact Or.inl rfl | exact Or.inr rfl

/-- Claim C3 counterexample: when spawning or waiting on the child raises an
ordinary exception (the `except Exception` branch, e.g. `sys.executable`
missing), `_run_code` returns a fifth result shape,
`(False, "Unexpected error: boom")`, which matches none of the four claimed
outcomes — so `_run_code` does not have exactly four outcomes. -/
theorem run_code_has_fifth_outcome :
    ¬ FourOutcomeSpec
        ((run_code ⟨.raised "boom".data, []⟩ "/tmp/src.py" "/out/plot.png" []).1) := by
  intro h
  rcases h with h | h | h | ⟨o, e, h⟩
  · exact absurd h (by decide)
  · exact absurd h (by decide)
  · exact absurd h (by decide)
  · have hp : ((run_code ⟨.raised "boom".data, []⟩ "/tmp/src.py"
        "/out/plot.png" []).1.2.drop 2).head? = ((exitMsg o e).drop 2).head? := by
      rw [h]
    rcases exitMsg_drop_two_head o e with he | he <;> rw [he] at hp <;>
      exact absurd hp (by decide)

/-- The stdout and stderr captured from a non-zero exit appear verbatim
(as substrings) in the diagnostic message. -/
theorem exitMsg_contains_streams (o e : List Char) :
    containsSub (exitMsg o e) o = true ∧ containsSub (exitMsg o e) e = true := by
  simp only [containsSub_iff_occurs]
  cases o with
  | nil =>
      cases e with
      | nil => exact ⟨List.nil_infix, List.nil_infix⟩
      | cons b bs =>
          exact ⟨List.nil_infix,
            ⟨"STDERR:\n".data, [], by simp [exitMsg]⟩⟩
  | cons a as =>
      cases e with
      | nil =>
          exact ⟨⟨"STDOUT:\n".data, [], by simp [exitMsg]⟩, List.nil_infix⟩
      | cons b bs =>
          refine ⟨⟨"STDOUT:\n".data,
              "\n\n".data ++ "STDERR:\n".data ++ (b :: bs), ?_⟩,
            ⟨"STDOUT:\n".data ++ (a :: as) ++ "\n\n".data ++ "STDERR:\n".data,
              [], ?_⟩⟩ <;>
            simp [exitMsg, List.append_assoc]

/-- Claim C3 (amended): `_run_code` has exactly five outcomes.  (a) a
non-zero child exit yields failure with the captured stdout and stderr
embedded verbatim in the diagnostic; (b) a timeout yields failure with the
fixed message containing "execution timed out", after the process is killed;
(c) a zero exit with the declared output path absent yields failure stating
the code ran but produced no output; (d) a zero exit with the output present
yields success; and additionally (e) any other exception raised while
spawning or waiting on the child yields failure with a message prefixed
"Unexpected error: ". -/
theorem run_code_five_outcomes (env : RunEnv) (tmp output_path : String)
    (fs : List String) :
    (∀ c o e, env.outcome = .exited c o e → c ≠ 0 →
      (run_code env tmp output_path fs).1 = (false, exitMsg o e) ∧
      containsSub (exitMsg o e) o = true ∧ containsSub (exitMsg o e) e = true) ∧
    (env.outcome = .timedOut →
      (run_code env tmp output_path fs).1 = (false, timeoutMsg) ∧
      containsSub timeoutMsg "execution timed out".data = true) ∧
    (∀ o e, env.outcome = .exited 0 o e →
      (output_path ∈ tmp :: fs ++ env.created →
        (run_code env tmp output_path fs).1 = (true, [])) ∧
      (output_path ∉ tmp :: fs ++ env.created →
        (run_code env tmp output_path fs).1 = (false, noOutputMsg))) ∧
    (∀ m, env.outcome = .raised m →
      (run_code env tmp output_path fs).1 = (false, unexpectedErrorTag ++ m)) := by
  refine ⟨?_, ?_, ?_, ?_⟩
  · intro c o e hout hc
    exact ⟨by simp [run_code, hout, hc], exitMsg_contains_streams o e⟩
  · intro hout
    exact ⟨by simp [run_code, hout], by decide⟩
  · intro o e hout
    constructor <;> intro hmem
    · simp only [run_code, hout]
      rw [if_neg (by decide : ¬((0:Int) ≠ 0)), if_pos hmem]
    · simp only [run_code, hout]
      rw [if_neg (by decide : ¬((0:Int) ≠ 0)), if_neg hmem]
  · intro m hout
    simp [run_code, hout]

/-- Claim C3 witness: concrete instances of the timeout and missing-output
outcomes, read off `run_code_five_outcomes`. -/
theorem run_code_five_outcomes_witness :
    (run_code ⟨.timedOut, []⟩ "/tmp/src.py" "/out/plot.png" []).1 =
      (false, timeoutMsg) ∧
    (run_code ⟨.exited 0 [] [], []⟩ "/tmp/src.py" "/out/plot.png" []).1 =
      (false, noOutputMsg) := by
  constructor
  · exact ((run_code_five_outcomes ⟨.timedOut, []⟩ "/tmp/src.py"
      "/out/plot.png" []).2.1 rfl).1
  · exact ((run_code_five_outcomes ⟨.exited 0 [] [], []⟩ "/tmp/src.py"
      "/out/plot.png" []).2.2.1 [] [] rfl).2 (by decide)

/-! ### C5: totality of payload extraction -/

/-- Claim C5 counterexample: an input with an opening fence marker but no
closing fence makes `paperbanana._extract_python` and
`paperbanana._extract_json` raise `ValueError` (from `str.index`), rather
than degrade to the text after the opening marker — extraction can fail. -/
theorem extract_unclosed_fence_raises :
    extract_python "```python\nx".data = .error () ∧
    extract_json "```json\nx".data = .error () := by
  constructor <;> decide

/-- Claim C5 (amended): the paperbanana extraction helpers raise exactly
when the opening fence they latch onto has no closing ``` later in the
input; on every other input (including fence-free input) they return without
raising.  The autopage `_extract_json` variant does degrade gracefully: with
an unclosed ```json fence it returns everything after the opening marker,
trimmed. -/
theorem extract_raises_iff_unclosed_fence (s : List Char) :
    (extract_python s = .error () ↔
      (∃ i, findSub s pyFence = some i ∧
        findSubFrom s fence (i + pyFence.length) = none) ∨
      (findSub s pyFence = none ∧ ∃ i, findSub s fence = some i ∧
        findSubFrom s fence (i + 3) = none)) ∧
    (extract_json s = .error () ↔
      (∃ i, findSub (pyStrip s) jsonFence = some i ∧
        findSubFrom (pyStrip s) fence (i + jsonFence.length) = none) ∨
      (findSub (pyStrip s) jsonFence = none ∧
        ∃ i, findSub (pyStrip s) fence = some i ∧
        findSubFrom (pyStrip s) fence (i + 3) = none)) ∧
    (∀ i, findSub (pyStrip s) jsonFence = some i →
      findSubFrom (pyStrip s) fence (i + jsonFence.length) = none →
      ap_extract_json s =
        pyStrip (pySlice (pyStrip s) (i + jsonFence.length) (pyStrip s).length)) := by
  refine ⟨?_, ?_, ?_⟩
  · rcases h1 : findSub s pyFence with _ | i
    · rcases h2 : findSub s fence with _ | j
      · simp [extract_python, h1, h2]
      · rcases h3 : findSubFrom s fence (j + 3) with _ | e <;>
          simp [extract_python, h1, h2, h3]
    · rcases h2 : findSubFrom s fence (i + pyFence.length) with _ | e <;>
        simp [extract_python, h1, h2]
  · rcases h1 : findSub (pyStrip s) jsonFence with _ | i
    · rcases h2 : findSub (pyStrip s) fence with _ | j
      · simp [extract_json, h1, h2]
      · rcases h3 : findSubFrom (pyStrip s) fence (j + 3) with _ | e <;>
          simp [extract_json, h1, h2, h3]
    · rcases h2 : findSubFrom (pyStrip s) fence (i + jsonFence.length) with _ | e <;>
        simp [extract_json, h1, h2]
  · intro i hi hnone
    simp [ap_extract_json, hi, hnone]

/-- Claim C5 witness: on the unclosed input from the counterexample, the
autopage extractor degrades to the text after the opening marker. -/
theorem extract_raises_iff_unclosed_fence_witness :
    ap_extract_json "```json\nx".data = "x".data := by
  have h := (extract_raises_iff_unclosed_fence "```json\nx".data).2.2 0 rfl rfl
  rw [h]
  decide

/-! ### C6: three-tier priority of payload extraction -/

/-- Claim C6: payload extraction follows the three-tier priority on inputs
with closed fences, for both `paperbanana._extract_json` and
`autopage._extract_json`: a ```json-tagged fence's body trimmed if one is
present, otherwise the body of the first generic ``` fence trimmed,
otherwise the entire (trimmed) input; in particular the fenced input
consisting of `\x7b"a":1\x7d` inside a ```json fence yields exactly that
object text. -/
theorem extract_json_three_tier (s : List Char) :
    (∀ i e, findSub (pyStrip s) jsonFence = some i →
      findSubFrom (pyStrip s) fence (i + jsonFence.length) = some e →
      extract_json s = .ok (pyStrip (pySlice (pyStrip s) (i + jsonFence.length) e)) ∧
      ap_extract_json s = pyStrip (pySlice (pyStrip s) (i + jsonFence.length) e)) ∧
    (findSub (pyStrip s) jsonFence = none →
      ∀ i e, findSub (pyStrip s) fence = some i →
        findSubFrom (pyStrip s) fence (i + 3) = some e →
        extract_json s = .ok (pyStrip (pySlice (pyStrip s) (i + 3) e)) ∧
        ap_extract_json s = pyStrip (pySlice (pyStrip s) (i + 3) e)) ∧
    (findSub (pyStrip s) jsonFence = none → findSub (pyStrip s) fence = none →
      extract_json s = .ok (pyStrip s) ∧ ap_extract_json s = pyStrip s) ∧
    (extract_json "```json\n\x7b\"a\":1\x7d\n```".data = .ok "\x7b\"a\":1\x7d".data ∧
      ap_extract_json "```json\n\x7b\"a\":1\x7d\n```".data = "\x7b\"a\":1\x7d".data) := by
  refine ⟨?_, ?_, ?_, by decide, by decide⟩
  · intro i e hi he
    exact ⟨by simp [extract_json, hi, he], by simp [ap_extract_json, hi, he]⟩
  · intro hnone i e hi he
    have hlen : fence.length = 3 := rfl
    exact ⟨by simp [extract_json, hnone, hi, he],
      by simp [ap_extract_json, hnone, hlen, hi, he]⟩
  · intro h1 h2
    exact ⟨by simp [extract_json, h1, h2], by simp [ap_extract_json, h1, h2]⟩

/-- Claim C6 witness: the tagged-fence tier applied to the fenced JSON
object input, closing fence at index 16. -/
theorem extract_json_three_tier_witness :
    extract_json "```json\n\x7b\"a\":1\x7d\n```".data = .ok "\x7b\"a\":1\x7d".data := by
  have h := (extract_json_three_tier "```json\n\x7b\"a\":1\x7d\n```".data).1 0 16 rfl rfl
  exact h.1.trans (by decide)

/-! ### C7 / C8: reference selection -/

/-- Claim C7 counterexample: a ranking provider whose response parses as a
JSON object *missing* the `selected_ids` field does not fall back to the
first-`k` candidates — `.get("selected_ids", [])` silently defaults to `[]`,
no exception is raised, and the selection is empty instead of the first `k`
in store order. -/
theorem select_references_missing_field_not_first_k :
    select_references true (.ok "resp")
      (fun _ => .ok (.dict [("foo".data, .num 1)]))
      [⟨"ref_1", "ctx1", "cap1", "", none⟩, ⟨"ref_2", "ctx2", "cap2", "", none⟩]
      1 = [] ∧
    ([⟨"ref_1", "ctx1", "cap1", "", none⟩, ⟨"ref_2", "ctx2", "cap2", "", none⟩] :
        List ReferenceExample).take 1 = [⟨"ref_1", "ctx1", "cap1", "", none⟩] ∧
    ([] : List ReferenceExample) ≠ [⟨"ref_1", "ctx1", "cap1", "", none⟩] := by
  refine ⟨rfl, rfl, by decide⟩

/-- Claim C7 (amended): reference selection returns the first `k` candidates
in store order whenever the ranking provider is absent, the pool has at most
`k` candidates, the provider raises, or its response fails to parse as JSON;
these failures are caught locally and never abort the caller.  However, a
response parsing to a JSON object without the `selected_ids` field yields
the empty selection (the `.get` default), not the first-`k` fallback. -/
theorem select_references_first_k_policy :
    (∀ (gen : Except Unit String) (loads : String → Except Unit PyJson)
        (cands : List ReferenceExample) (k : Nat),
      select_references false gen loads cands k = cands.take k) ∧
    (∀ (b : Bool) (gen : Except Unit String) (loads : String → Except Unit PyJson)
        (cands : List ReferenceExample) (k : Nat), cands.length ≤ k →
      select_references b gen loads cands k = cands.take k) ∧
    (∀ (b : Bool) (loads : String → Except Unit PyJson)
        (cands : List ReferenceExample) (k : Nat),
      select_references b (.error ()) loads cands k = cands.take k) ∧
    (∀ (b : Bool) (resp : String) (loads : String → Except Unit PyJson)
        (cands : List ReferenceExample) (k : Nat), loads resp = .error () →
      select_references b (.ok resp) loads cands k = cands.take k) ∧
    (∀ (resp : String) (loads : String → Except Unit PyJson)
        (kvs : List (List Char × PyJson)) (cands : List ReferenceExample) (k : Nat),
      loads resp = .ok (.dict kvs) →
      kvs.reverse.find? (fun kv => kv.1 = "selected_ids".data) = none →
      k < cands.length →
      select_references true (.ok resp) loads cands k = []) := by
  refine ⟨?_, ?_, ?_, ?_, ?_⟩
  · intro gen loads cands k
    simp [select_references]
  · intro b gen loads cands k hle
    simp [select_references, Nat.not_lt.mpr hle]
  · intro b loads cands k
    unfold select_references
    split
    · rfl
    · rfl
  · intro b resp loads cands k hload
    unfold select_references
    split
    · simp [vlm_rank, hload]
    · rfl
  · intro resp loads kvs cands k hload hmiss hk
    simp [select_references, hk, vlm_rank, hload, pyGet, hmiss, pyIterate,
      selectByIds]

/-- Claim C7 witness: a provider raising and a provider returning non-JSON
both fall back to the first-`k` policy at a concrete pool. -/
theorem select_references_first_k_policy_witness :
    select_references true (.error ())
      (fun _ => .ok .null)
      [⟨"ref_1", "c", "p", "", none⟩, ⟨"ref_2", "c", "p", "", none⟩] 1 =
      [⟨"ref_1", "c", "p", "", none⟩] ∧
    select_references true (.ok "not json")
      (fun _ => .error ())
      [⟨"ref_1", "c", "p", "", none⟩, ⟨"ref_2", "c", "p", "", none⟩] 1 =
      [⟨"ref_1", "c", "p", "", none⟩] := by
  constructor
  · exact (select_references_first_k_policy.2.2.1 true (fun _ => .ok .null)
      [⟨"ref_1", "c", "p", "", none⟩, ⟨"ref_2", "c", "p", "", none⟩] 1).trans
      (by decide)
  · exact (select_references_first_k_policy.2.2.2.1 true "not json" (fun _ => .error ())
      [⟨"ref_1", "c", "p", "", none⟩, ⟨"ref_2", "c", "p", "", none⟩] 1 rfl).trans
      (by decide)

/-- The comprehension `[id_map[eid] for eid in ids if eid in id_map]` on a
list of string ids never raises and equals the order-preserving lookup of
each id among the candidates. -/
theorem selectByIds_strings (cands : List ReferenceExample)
    (ids : List (List Char)) :
    selectByIds cands (ids.map PyJson.str) =
      .ok (ids.filterMap (fun s => cands.find? (fun c => c.id.data = s))) := by
  induction ids with
  | nil => rfl
  | cons s rest ih =>
      cases hfind : cands.find? (fun c => c.id.data = s) <;>
        simp [selectByIds, lookupCandidate, ih, List.filterMap_cons, hfind]

/-- Claim C8: when the provider response parses to a JSON object whose
`selected_ids` is a list of string ids, `_vlm_rank` returns exactly the
candidates those ids name, in the provider's order, dropping ids not in the
pool, truncated to at most `num_examples`, and every returned example comes
from the candidate pool. -/
theorem vlm_rank_maps_provider_ids (resp : String)
    (loads : String → Except Unit PyJson) (data : PyJson)
    (ids : List (List Char)) (cands : List ReferenceExample) (k : Nat)
    (hload : loads resp = .ok data)
    (hids : pyGet data "selected_ids".data (.list []) =
      .ok (.list (ids.map PyJson.str))) :
    vlm_rank (.ok resp) loads cands k =
      (ids.filterMap (fun s => cands.find? (fun c => c.id.data = s))).take k ∧
    (vlm_rank (.ok resp) loads cands k).length ≤ k ∧
    ∀ x ∈ vlm_rank (.ok resp) loads cands k, x ∈ cands := by
  have h1 : vlm_rank (.ok resp) loads cands k =
      (ids.filterMap (fun s => cands.find? (fun c => c.id.data = s))).take k := by
    simp [vlm_rank, hload, hids, pyIterate, selectByIds_strings]
  refine ⟨h1, ?_, ?_⟩
  · rw [h1]
    simp [List.length_take]
  · intro x hx
    rw [h1] at hx
    obtain ⟨s, _, hfind⟩ := List.mem_filterMap.mp (List.take_subset _ _ hx)
    exact List.mem_of_find?_eq_some hfind

/-- Claim C8 witness: a provider returning `selected_ids = ["ref_3","ref_5"]`
for `k = 2` over a 7-item pool yields exactly those two examples, in that
order. -/
theorem vlm_rank_maps_provider_ids_witness :
    vlm_rank (.ok "resp")
      (fun _ => .ok (.dict [("selected_ids".data,
        .list [.str "ref_3".data, .str "ref_5".data])]))
      [⟨"ref_1", "c", "p", "", none⟩, ⟨"ref_2", "c", "p", "", none⟩,
       ⟨"ref_3", "c", "p", "", none⟩, ⟨"ref_4", "c", "p", "", none⟩,
       ⟨"ref_5", "c", "p", "", none⟩, ⟨"ref_6", "c", "p", "", none⟩,
       ⟨"ref_7", "c", "p", "", none⟩] 2 =
      [⟨"ref_3", "c", "p", "", none⟩, ⟨"ref_5", "c", "p", "", none⟩] := by
  have h := vlm_rank_maps_provider_ids "resp"
    (fun _ => .ok (.dict [("selected_ids".data,
      .list [.str "ref_3".data, .str "ref_5".data])]))
    (.dict [("selected_ids".data, .list [.str "ref_3".data, .str "ref_5".data])])
    ["ref_3".data, "ref_5".data]
    [⟨"ref_1", "c", "p", "", none⟩, ⟨"ref_2", "c", "p", "", none⟩,
     ⟨"ref_3", "c", "p", "", none⟩, ⟨"ref_4", "c", "p", "", none⟩,
     ⟨"ref_5", "c", "p", "", none⟩, ⟨"ref_6", "c", "p", "", none⟩,
     ⟨"ref_7", "c", "p", "", none⟩] 2 rfl rfl
  exact h.1.trans (by decide)

/-! ### C10: the critique tool's needs_revision flag -/

/-- Claim C10: on a provider response parsed to a JSON object whose
`critic_suggestions` is a list, the returned `needs_revision` is true exactly
when that list is non-empty and `revised_description` is truthy (in
particular non-null) — `bool(suggestions and revised)`. -/
theorem critique_needs_revision_iff (kvs : List (List Char × PyJson))
    (sug : List PyJson) (rev : PyJson)
    (hs : pyGet (.dict kvs) "critic_suggestions".data (.list []) = .ok (.list sug))
    (hr : pyGet (.dict kvs) "revised_description".data .null = .ok rev) :
    ∃ res, critique_result (.dict kvs) = .ok res ∧
      res.suggestions = .list sug ∧ res.revised_description = rev ∧
      (res.needs_revision = true ↔ sug ≠ [] ∧ truthy rev = true) := by
  refine ⟨⟨.list sug, truthy (.list sug) && truthy rev, rev⟩, ?_, rfl, rfl, ?_⟩
  · simp [critique_result, hs, hr]
  · simp [truthy]

/-- Claim C10 witness: one actionable suggestion together with a null
`revised_description` yields `needs_revision = false`. -/
theorem critique_needs_revision_iff_witness :
    ∃ res, critique_result (.dict
      [("critic_suggestions".data, .list [.str "fix the arrow".data]),
       ("revised_description".data, .null)]) = .ok res ∧
      res.needs_revision = false := by
  obtain ⟨res, heq, _, _, hiff⟩ := critique_needs_revision_iff
    [("critic_suggestions".data, .list [.str "fix the arrow".data]),
     ("revised_description".data, .null)]
    [.str "fix the arrow".data] .null rfl rfl
  refine ⟨res, heq, ?_⟩
  cases hnr : res.needs_revision
  · rfl
  · exact absurd (hiff.mp hnr).2 (by decide)

/-! ### C1: the registry's execute never raises -/

/-- Claim C1 (modelled from the spec, `registry.py` not being under `src/`):
for every registered tool and argument mapping, `execute` with a missing
required argument returns a text containing "Invalid parameters", and when
the tool's operation raises, `execute` returns a text prefixed "Error: " —
being a total function into `String`, `execute` never raises to its caller. -/
theorem registry_execute_never_raises (tool : ToolModel)
    (args : List (String × PyJson)) :
    (∀ r, r ∈ tool.required → argLookup args r = none →
      containsSub (registry_execute [tool] tool.name args).data
        "Invalid parameters".data = true) ∧
    (∀ e, validateArgs tool args = none → tool.op args = .error e →
      registry_execute [tool] tool.name args = "Error: " ++ e) := by
  have hfind : List.find? (fun t => t.name = tool.name) [tool] = some tool := by
    simp [List.find?]
  constructor
  · intro r hr hnone
    obtain ⟨r0, hr0⟩ : ∃ r0,
        tool.required.find? (fun x => (argLookup args x).isNone) = some r0 := by
      rw [← Option.isSome_iff_exists, List.find?_isSome]
      exact ⟨r, hr, by simp [hnone]⟩
    have hval : validateArgs tool args =
        some ("Invalid parameters: missing required argument " ++ r0) := by
      simp [validateArgs, hr0]
    have hres : registry_execute [tool] tool.name args =
        "Invalid parameters: missing required argument " ++ r0 := by
      simp [registry_execute, hfind, hval]
    rw [hres, containsSub_iff_occurs, String.data_append]
    have hpref : "Invalid parameters".data <+:
        "Invalid parameters: missing required argument ".data := by decide
    exact (hpref.trans (List.prefix_append _ _)).isInfix
  · intro e hval hop
    simp [registry_execute, hfind, hval, hop]

/-- Claim C1 witness: calling the fixture tool with `caption` missing yields
an "Invalid parameters" text; calling it with valid arguments while its
operation raises yields "Error: boom". -/
theorem registry_execute_never_raises_witness :
    containsSub (registry_execute [searchToolFixture] "search_references"
      [("source_context", .str "text".data)]).data
      "Invalid parameters".data = true ∧
    registry_execute [searchToolFixture] "search_references"
      [("source_context", .str "m".data), ("caption", .str "c".data)] =
      "Error: boom" := by
  constructor
  · exact (registry_execute_never_raises searchToolFixture
      [("source_context", .str "text".data)]).1 "caption" (by decide) rfl
  · exact (registry_execute_never_raises searchToolFixture
      [("source_context", .str "m".data), ("caption", .str "c".data)]).2
      "boom" rfl rfl

end ClawPhD
